import Mathlib

/-!
Verification of the PK-mini core against its specification.

Shallow embedding of:
  * `src/rhythm/BPMManager.ts`   — the beat clock (class `BPMManager`);
  * `src/midi/APCMiniMK2Manager.ts` — the base control-surface state class;
  * `src/midi/APCMiniMK2Sequencer.ts` — the 8×8 step sequencer and LED feedback.

Modelling conventions:
  * JavaScript numbers are modelled as `ℚ` (the claims under study do not
    depend on float rounding); integer-valued fields (`beatCount`, grid
    cells, MIDI bytes) use `ℤ`/`ℕ`.
  * `performance.now()` is modelled by passing the current time explicitly
    to each operation that reads the clock.
  * JS arrays become `List`s; `a[i] = v` on an in-bounds index becomes
    `List.set`, reads become `List.getD`.
  * MIDI transmission is modelled by returning the list of emitted
    messages `(status, note, velocity)` instead of performing IO.
-/

namespace PKMini

/-- JS `Math.trunc`-style truncation of a rational (round toward zero);
used to model the JS `%` operator. -/
def jsTrunc (q : ℚ) : ℤ := if 0 ≤ q then ⌊q⌋ else ⌈q⌉

/-- The JS remainder operator `x % y` (sign follows the dividend). -/
def jsRem (x y : ℚ) : ℚ := x - y * (jsTrunc (x / y) : ℚ)

/-- JS `Math.round` (round half toward +∞). -/
def jsRound (q : ℚ) : ℤ := ⌊q + 1/2⌋

/-! ## BPMManager (src/rhythm/BPMManager.ts) -/

/-- The fields of class `BPMManager`. -/
structure BPMState where
  bpm : ℚ
  interval : ℚ
  lastUpdateTime : ℚ
  elapsed : ℚ
  beatCount : ℤ
  isPlaying : Bool
  isBeatUpdated : Bool
  pendingBPM : Option ℚ
  pendingBPMChange : Bool
  tapTimes : List ℚ
deriving Repr, DecidableEq

namespace BPMManager

/-- Embeds `BPMManager.setBPM` (lines 40–46): stages the new BPM unless it equals
the current one.  Note the source performs no validation of `newBPM`. -/
def setBPM (s : BPMState) (newBPM : ℚ) : BPMState :=
  if newBPM ≠ s.bpm then
    { s with pendingBPM := some newBPM, pendingBPMChange := true }
  else s

/-- Embeds `BPMManager.start` (lines 48–55); `now` models `performance.now()`. -/
def start (s : BPMState) (now : ℚ) : BPMState :=
  if s.isPlaying = false then
    { s with isPlaying := true, lastUpdateTime := now, beatCount := 0 }
  else s

/-- Embeds `BPMManager.stop` (lines 57–60). -/
def stop (s : BPMState) : BPMState :=
  { s with isPlaying := false }

/-- Embeds `BPMManager.update` (lines 62–90); `currentTime` models
`performance.now()`.  The phase wraps with the OLD interval, and only
afterwards is a pending tempo change committed. -/
def update (s : BPMState) (currentTime : ℚ) : BPMState :=
  if s.isPlaying = false then
    { s with isBeatUpdated := false }
  else
    let delta := currentTime - s.lastUpdateTime
    let elapsed1 := s.elapsed + delta
    if s.interval ≤ elapsed1 then
      let beatIncrements : ℤ := ⌊elapsed1 / s.interval⌋
      let beatCount1 := s.beatCount + beatIncrements
      let elapsed2 := jsRem elapsed1 s.interval
      match s.pendingBPMChange, s.pendingBPM with
      | true, some p =>
          { s with lastUpdateTime := currentTime, elapsed := elapsed2,
                   beatCount := beatCount1,
                   bpm := p, interval := 60000 / p,
                   pendingBPM := none, pendingBPMChange := false,
                   isBeatUpdated := true }
      | _, _ =>
          { s with lastUpdateTime := currentTime, elapsed := elapsed2,
                   beatCount := beatCount1, isBeatUpdated := true }
    else
      { s with lastUpdateTime := currentTime, elapsed := elapsed1,
               isBeatUpdated := false }

/-- Embeds `BPMManager.getBeat` (lines 97–99). -/
def getBeat (s : BPMState) : ℚ :=
  (s.beatCount : ℚ) + s.elapsed / s.interval

/-- The `BPMManager` constructor (lines 27–36) followed by the `start()`
call it performs; `now` models `performance.now()` at construction. -/
def init (initialBPM : ℚ) (now : ℚ) : BPMState :=
  start
    { bpm := initialBPM, interval := 60000 / initialBPM,
      lastUpdateTime := 0, elapsed := 0, beatCount := 0,
      isPlaying := false, isBeatUpdated := false,
      pendingBPM := none, pendingBPMChange := false, tapTimes := [] }
    now

/-- Embeds `BPMManager.calculateBPMFromTaps` (lines 130–141).  NOTE: with fewer
than two taps it returns unchanged; in JS a zero average interval gives
`60000/0 = Infinity`, while here `ℚ` division by zero gives `0` — no
theorem below relies on the zero-interval value, only on the fact that the
result is passed unvalidated to `setBPM`. -/
def calculateBPMFromTaps (s : BPMState) : BPMState :=
  if s.tapTimes.length < 2 then s
  else
    let intervals := (s.tapTimes.zip s.tapTimes.tail).map fun p => p.2 - p.1
    let sum := intervals.foldl (· + ·) 0
    let averageInterval := sum / (intervals.length : ℚ)
    let newBPM := jsRound (60000 / averageInterval)
    setBPM s (newBPM : ℚ)

/-- Embeds `BPMManager.tapTempo` (lines 115–128); `now` models
`performance.now()`. -/
def tapTempo (s : BPMState) (now : ℚ) : BPMState :=
  let s :=
    if s.tapTimes ≠ [] ∧ 2000 < now - s.tapTimes.getLast! then
      { s with tapTimes := [] }
    else s
  let s := { s with tapTimes := s.tapTimes ++ [now] }
  let s :=
    if 4 < s.tapTimes.length then { s with tapTimes := s.tapTimes.tail }
    else s
  if 2 ≤ s.tapTimes.length then calculateBPMFromTaps s else s

end BPMManager

/-! ## APCMiniMK2Manager (src/midi/APCMiniMK2Manager.ts) and
     APCMiniMK2Sequencer (src/midi/APCMiniMK2Sequencer.ts) -/

/-- Embeds `APC_COLORS.PATTERN_COLORS` (APCMiniMK2Sequencer.ts lines 30–39). -/
def PATTERN_COLORS : List ℤ := [5, 60, 56, 53, 45, 37, 32, 21]

/-- Embeds `APC_COLORS.OFF`. -/
def APC_OFF : ℤ := 0

/-- Embeds `APC_COLORS.WHITE`. -/
def APC_WHITE : ℤ := 3

/-- Embeds `MAX_INTENSITY_OFFSET` (APCMiniMK2Sequencer.ts line 172). -/
def MAX_INTENSITY_OFFSET : ℤ := 124

/-- A raw MIDI message `[status, data1, data2]`; for incoming messages
`data2` is the velocity. -/
structure MidiMsg where
  status : ℕ
  data1 : ℕ
  data2 : ℕ
deriving Repr, DecidableEq

/-- An outbound message `(status, note, velocity)` as handed to
`MIDIManager.sendMessage`. -/
structure OutMsg where
  status : ℕ
  note : ℕ
  velocity : ℤ
deriving Repr, DecidableEq

/-- The fields of `APCMiniMK2Manager` together with those added by
`APCMiniMK2Sequencer` (`sequencePatterns`) and the `midiSuccess` flag
inherited from `MIDIManager`. -/
structure SeqState where
  faderValues : List ℚ
  faderValuesPrev : List ℚ
  faderButtonToggleState : List ℤ
  faderRandomModeActive : List Bool
  sideButtonToggleState : List ℤ
  sideButtonRadioNum : ℕ
  midiSuccess : Bool
  sequencePatterns : List (List ℤ)
deriving Repr, DecidableEq

namespace APCMiniMK2Sequencer

/-- Embeds `APCMiniMK2Manager.updateFaderValue` (APCMiniMK2Manager.ts 117–121). -/
def updateFaderValue (s : SeqState) (index : ℕ) : SeqState :=
  if s.faderRandomModeActive.getD index false = false then
    { s with faderValues :=
        s.faderValues.set index (s.faderValuesPrev.getD index 0) }
  else s

/-- Embeds `APCMiniMK2Manager.handleMIDIMessage` (APCMiniMK2Manager.ts 78–115):
fader buttons (notes 100–107 and 122), side buttons (112–119), faders
(CC 48–56). -/
def managerHandleMIDIMessage (s : SeqState) (m : MidiMsg) : SeqState :=
  let velocity := m.data2
  if (m.status = 0x90 ∨ m.status = 0x80) ∧
      ((100 ≤ m.data1 ∧ m.data1 ≤ 107) ∨ m.data1 = 122) then
    -- NOTE: the source computes `data1 >= 100 ? data1 - 100 : 8`,
    -- which yields index 22 for note 122; transcribed as written.
    let index := if 100 ≤ m.data1 then m.data1 - 100 else 8
    if 0 < velocity then
      let active := !(s.faderRandomModeActive.getD index false)
      let s := { s with
        faderRandomModeActive := s.faderRandomModeActive.set index active,
        faderButtonToggleState :=
          s.faderButtonToggleState.set index (if active then 1 else 0) }
      if active = false then updateFaderValue s index else s
    else s
  else if m.status = 0x90 ∧ 112 ≤ m.data1 ∧ m.data1 ≤ 119 then
    let index := m.data1 - 112
    if 0 < velocity then
      { s with sideButtonRadioNum := index,
               sideButtonToggleState :=
                 (List.replicate s.sideButtonToggleState.length 0).set index 1 }
    else s
  else if m.status = 0xB0 ∧ 48 ≤ m.data1 ∧ m.data1 ≤ 56 then
    let index := m.data1 - 48
    let normalizedValue : ℚ := (m.data2 : ℚ) / 127
    let s := { s with faderValuesPrev := s.faderValuesPrev.set index normalizedValue }
    updateFaderValue s index
  else s

/-- Embeds `APCMiniMK2Sequencer.handleMIDIMessage` (APCMiniMK2Sequencer.ts
90–108): runs the base-class handler, then, for a note-on/note-off with
nonzero velocity on a grid note (0–63), writes
`sequencePatterns[sideButtonRadioNum][note % 8] = 7 - floor(note / 8)`. -/
def handleMIDIMessage (s : SeqState) (m : MidiMsg) : SeqState :=
  let velocity := m.data2
  let s := managerHandleMIDIMessage s m
  if 0 < velocity ∧ (m.status = 0x90 ∨ m.status = 0x80) ∧ m.data1 ≤ 63 then
    let currentPatternIndex := s.sideButtonRadioNum
    let col := m.data1 % 8
    let row : ℤ := 7 - (m.data1 / 8 : ℕ)
    let newPattern := (s.sequencePatterns.getD currentPatternIndex []).set col row
    { s with sequencePatterns := s.sequencePatterns.set currentPatternIndex newPattern }
  else s

/-- Embeds `APCMiniMK2Sequencer.getSequenceValue` (lines 81–86): bounds-checked
read returning 0 out of range. -/
def getSequenceValue (s : SeqState) (patternIndex columnIndex : ℤ) : ℤ :=
  if patternIndex < 0 ∨ 8 ≤ patternIndex ∨ columnIndex < 0 ∨ 8 ≤ columnIndex then
    0
  else
    (s.sequencePatterns.getD patternIndex.toNat []).getD columnIndex.toNat 0

/-- Embeds `APCMiniMK2Sequencer.sendLEDMessage` (lines 134–158): clamps the
intensity to [0,127] and picks the status byte by note range.  (All call
sites pass integer intensities, so `Math.floor` is the identity here.) -/
def sendLEDMessage (midiNote : ℕ) (intensity : ℤ) : OutMsg :=
  let outIntensity := min (max intensity 0) 127
  if 0 ≤ midiNote ∧ midiNote ≤ 63 then
    ⟨0x96, midiNote, outIntensity⟩
  else if (112 ≤ midiNote ∧ midiNote ≤ 119) ∨
          ((100 ≤ midiNote ∧ midiNote ≤ 107) ∨ midiNote = 122) then
    ⟨0x90, midiNote, outIntensity⟩
  else
    ⟨0x90, midiNote, outIntensity⟩

/-- The grid-cell intensity computed by the loop body of
`sendSequencerLEDs` (lines 178–196): active cell and configured row both
get the pattern color, the playhead column gets WHITE, all else OFF. -/
def gridIntensity (s : SeqState) (currentStep : ℤ) (col row : ℕ) : ℤ :=
  let currentPatternIndex := s.sideButtonRadioNum
  let activeRow := (s.sequencePatterns.getD currentPatternIndex []).getD col 0
  if (row : ℤ) = activeRow ∧ (col : ℤ) = currentStep then
    PATTERN_COLORS.getD currentPatternIndex 0
  else if (row : ℤ) = activeRow then
    PATTERN_COLORS.getD currentPatternIndex 0
  else if (col : ℤ) = currentStep then
    APC_WHITE
  else
    APC_OFF

/-- The side-button intensity computed in `sendSequencerLEDs`
(lines 203–218): the selected pattern's button gets its pattern color
plus `MAX_INTENSITY_OFFSET`, capped at 127; others are OFF. -/
def sideButtonIntensity (s : SeqState) (i : ℕ) : ℤ :=
  if s.sideButtonRadioNum = i then
    let colorIntensity := PATTERN_COLORS.getD i 0 + MAX_INTENSITY_OFFSET
    if 127 < colorIntensity then 127 else colorIntensity
  else
    APC_OFF

/-- Embeds `APCMiniMK2Sequencer.sendSequencerLEDs` (lines 165–227), as the list
of messages passed to `sendMessage`: nothing when `midiSuccess` is false;
otherwise the 64 grid messages, the 8 side-button messages, and one
message per fader-button toggle entry. -/
def sendSequencerLEDs (s : SeqState) (currentStep : ℤ) : List OutMsg :=
  if s.midiSuccess = false then []
  else
    ((List.range 8).flatMap fun col =>
      (List.range 8).map fun row =>
        sendLEDMessage (col + (7 - row) * 8) (gridIntensity s currentStep col row)) ++
    ((List.range 8).map fun i =>
      sendLEDMessage (112 + i) (sideButtonIntensity s i)) ++
    (s.faderButtonToggleState.enum.map fun p =>
      sendLEDMessage (if p.1 < 8 then 100 + p.1 else 122)
        (if p.2 ≠ 0 then APC_WHITE + MAX_INTENSITY_OFFSET else APC_OFF))

/-- The `APCMiniMK2Sequencer` constructor: the base-class field
initialisation (APCMiniMK2Manager.ts 42–51) followed by
`initializeSequencePatterns` (8 patterns of 8 zeros);
`midiSuccess` is taken as a parameter (set by the MIDI transport). -/
def init (midiSuccess : Bool) : SeqState :=
  { faderValues := List.replicate 9 0,
    faderValuesPrev := List.replicate 9 0,
    faderButtonToggleState := List.replicate 9 0,
    faderRandomModeActive := List.replicate 9 false,
    sideButtonToggleState := List.replicate 8 0,
    sideButtonRadioNum := 0,
    midiSuccess := midiSuccess,
    sequencePatterns := List.replicate 8 (List.replicate 8 0) }

end APCMiniMK2Sequencer

/-! ## Helper lemmas -/

theorem jsTrunc_eq_floor {q : ℚ} (h : 0 ≤ q) : jsTrunc q = ⌊q⌋ := if_pos h

theorem jsRem_eq_fract {x y : ℚ} (hx : 0 ≤ x) (hy : 0 < y) :
    jsRem x y = y * Int.fract (x / y) := by
  unfold jsRem Int.fract
  rw [jsTrunc_eq_floor (div_nonneg hx hy.le)]
  field_simp

theorem jsRem_nonneg {x y : ℚ} (hx : 0 ≤ x) (hy : 0 < y) : 0 ≤ jsRem x y := by
  rw [jsRem_eq_fract hx hy]
  exact mul_nonneg hy.le (Int.fract_nonneg _)

theorem jsRem_lt {x y : ℚ} (hx : 0 ≤ x) (hy : 0 < y) : jsRem x y < y := by
  rw [jsRem_eq_fract hx hy]
  calc y * Int.fract (x / y) < y * 1 :=
        mul_lt_mul_of_pos_left (Int.fract_lt_one _) hy
    _ = y := mul_one y

theorem floor_add_jsRem_div (e i : ℚ) (he : 0 ≤ e) (hi : 0 < i) :
    (⌊e / i⌋ : ℚ) + jsRem e i / i = e / i := by
  rw [jsRem_eq_fract he hi, mul_div_cancel_left₀ _ hi.ne', Int.floor_add_fract]

open BPMManager in
/-- The base-class handler never touches `sequencePatterns`. -/
theorem manager_preserves_sequencePatterns (s : SeqState) (m : MidiMsg) :
    (APCMiniMK2Sequencer.managerHandleMIDIMessage s m).sequencePatterns =
      s.sequencePatterns := by
  unfold APCMiniMK2Sequencer.managerHandleMIDIMessage
    APCMiniMK2Sequencer.updateFaderValue
  dsimp only
  repeat' split <;> try rfl

/-- A note-on/note-off on a grid note (0–63) falls through every branch of
the base-class handler. -/
theorem manager_skips_grid_notes (s : SeqState) (m : MidiMsg)
    (hst : m.status = 0x90 ∨ m.status = 0x80) (hn : m.data1 ≤ 63) :
    APCMiniMK2Sequencer.managerHandleMIDIMessage s m = s := by
  have h1 : ¬((m.status = 0x90 ∨ m.status = 0x80) ∧
      ((100 ≤ m.data1 ∧ m.data1 ≤ 107) ∨ m.data1 = 122)) := by omega
  have h2 : ¬(m.status = 0x90 ∧ 112 ≤ m.data1 ∧ m.data1 ≤ 119) := by omega
  have h3 : ¬(m.status = 0xB0 ∧ 48 ≤ m.data1 ∧ m.data1 ≤ 56) := by omega
  unfold APCMiniMK2Sequencer.managerHandleMIDIMessage
  rw [if_neg h1, if_neg h2, if_neg h3]

open APCMiniMK2Sequencer in
/-- Any message that is not a nonzero-velocity note-on/note-off on a grid
note leaves `sequencePatterns` unchanged. -/
theorem handle_preserves_patterns (s : SeqState) (m : MidiMsg)
    (h : ¬(0 < m.data2 ∧ (m.status = 0x90 ∨ m.status = 0x80) ∧ m.data1 ≤ 63)) :
    (handleMIDIMessage s m).sequencePatterns = s.sequencePatterns := by
  unfold handleMIDIMessage
  dsimp only
  rw [if_neg h]
  exact manager_preserves_sequencePatterns s m

/-! ## C1 -/

open BPMManager in
/-- C1 counterexample: `setBPM(-5)` on a freshly constructed clock
(bpm = 120) is NOT rejected — it mutates `pendingBPM`/`pendingBPMChange`,
so the state does not retain its prior values. -/
theorem C1_counterexample :
    BPMManager.setBPM (BPMManager.init 120 0) (-5) ≠ BPMManager.init 120 0 ∧
    (BPMManager.setBPM (BPMManager.init 120 0) (-5)).pendingBPM = some (-5) ∧
    (BPMManager.init 120 0).pendingBPM = none := by
  have h1 : (BPMManager.setBPM (BPMManager.init 120 0) (-5)).pendingBPM = some (-5) := by
    norm_num [BPMManager.setBPM, BPMManager.init, BPMManager.start]
  have h2 : (BPMManager.init 120 0).pendingBPM = none := by
    norm_num [BPMManager.init, BPMManager.start]
  refine ⟨fun h => ?_, h1, h2⟩
  rw [h, h2] at h1
  exact Option.noConfusion h1

open BPMManager in
/-- C1 (amended): `setBPM` performs no validation.  Every call
`setBPM(x)` with `x ≠ bpm` — including non-positive `x` — stages
`pendingBPM = x` and raises `pendingBPMChange`; only the staging fields
change, and no rejection occurs.  (The tap-tempo path likewise feeds its
computed BPM to `setBPM` unvalidated.) -/
theorem C1_setBPM_unvalidated (s : BPMState) (x : ℚ)
    (_hx : x ≤ 0) (hne : x ≠ s.bpm) :
    (setBPM s x).pendingBPM = some x ∧
    (setBPM s x).pendingBPMChange = true ∧
    (setBPM s x).bpm = s.bpm ∧
    (setBPM s x).interval = s.interval ∧
    (setBPM s x).elapsed = s.elapsed ∧
    (setBPM s x).beatCount = s.beatCount ∧
    (setBPM s x).isPlaying = s.isPlaying := by
  simp [setBPM, hne]

/-- Concrete trace shared by the C3 and C5 counterexamples: a clock at
60 BPM with a staged change to 240 BPM, updated at t = 1900ms.  The phase
wraps with the old interval (1900 → 900) and only then is the new interval
250 installed, leaving `elapsed = 900 ≥ 250 = interval`. -/
theorem trace_commit_faster :
    BPMManager.update (BPMManager.setBPM (BPMManager.init 60 0) 240) 1900 =
      ⟨240, 250, 1900, 900, 1, true, true, none, false, []⟩ := by
  have h0 : BPMManager.init 60 0 = ⟨60, 1000, 0, 0, 0, true, false, none, false, []⟩ := by
    norm_num [BPMManager.init, BPMManager.start]
  have h1 : BPMManager.setBPM (⟨60, 1000, 0, 0, 0, true, false, none, false, []⟩ : BPMState) 240 =
      ⟨60, 1000, 0, 0, 0, true, false, some 240, true, []⟩ := by
    norm_num [BPMManager.setBPM]
  rw [h0, h1]
  norm_num [BPMManager.update, jsRem, jsTrunc]

open BPMManager in
/-- Witness for C1 at `s = init 120 0`, `x = -5`. -/
theorem C1_setBPM_unvalidated_witness :
    ((-5 : ℚ) ≤ 0 ∧ (-5 : ℚ) ≠ (BPMManager.init 120 0).bpm) ∧
    ((setBPM (BPMManager.init 120 0) (-5)).pendingBPM = some (-5) ∧
     (setBPM (BPMManager.init 120 0) (-5)).pendingBPMChange = true ∧
     (setBPM (BPMManager.init 120 0) (-5)).bpm = (BPMManager.init 120 0).bpm ∧
     (setBPM (BPMManager.init 120 0) (-5)).interval = (BPMManager.init 120 0).interval ∧
     (setBPM (BPMManager.init 120 0) (-5)).elapsed = (BPMManager.init 120 0).elapsed ∧
     (setBPM (BPMManager.init 120 0) (-5)).beatCount = (BPMManager.init 120 0).beatCount ∧
     (setBPM (BPMManager.init 120 0) (-5)).isPlaying = (BPMManager.init 120 0).isPlaying) :=
  ⟨⟨by norm_num, by norm_num [BPMManager.init, BPMManager.start]⟩,
   C1_setBPM_unvalidated (BPMManager.init 120 0) (-5) (by norm_num)
     (by norm_num [BPMManager.init, BPMManager.start])⟩

/-! ## C3 -/

/-- C3 counterexample: after the `trace_commit_faster` call — an
`update()` while running that commits a pending tempo change at the beat
boundary — the phase does NOT lie in `[0, intervalMs)` for the
just-committed interval: `elapsed = 900` but `interval = 250`. -/
theorem C3_counterexample :
    (BPMManager.update (BPMManager.setBPM (BPMManager.init 60 0) 240) 1900).isPlaying = true ∧
    (BPMManager.update (BPMManager.setBPM (BPMManager.init 60 0) 240) 1900).elapsed = 900 ∧
    (BPMManager.update (BPMManager.setBPM (BPMManager.init 60 0) 240) 1900).interval = 250 ∧
    ¬((BPMManager.update (BPMManager.setBPM (BPMManager.init 60 0) 240) 1900).elapsed <
      (BPMManager.update (BPMManager.setBPM (BPMManager.init 60 0) 240) 1900).interval) := by
  rw [trace_commit_faster]
  norm_num

/-- C3 (amended): after `update()` while running — from a state with
non-negative phase and positive interval — `beatCount ≥ 0` and
`phaseMs ∈ [0, intervalMs)` hold for the interval in effect during the
wrap (the PRE-commit interval); the bound holds for the current interval
whenever this call did not change it.  When a call commits a faster
tempo, the phase can exceed the just-committed interval (see the
counterexample). -/
theorem C3_update_invariant (s : BPMState) (t : ℚ)
    (hplay : s.isPlaying = true) (hbc : 0 ≤ s.beatCount)
    (hel : 0 ≤ s.elapsed) (hint : 0 < s.interval) (ht : s.lastUpdateTime ≤ t) :
    0 ≤ (BPMManager.update s t).beatCount ∧
    0 ≤ (BPMManager.update s t).elapsed ∧
    (BPMManager.update s t).elapsed < s.interval ∧
    ((BPMManager.update s t).interval = s.interval →
      (BPMManager.update s t).elapsed < (BPMManager.update s t).interval) := by
  have he : 0 ≤ s.elapsed + (t - s.lastUpdateTime) := add_nonneg hel (sub_nonneg.2 ht)
  have hfl : (0 : ℤ) ≤ ⌊(s.elapsed + (t - s.lastUpdateTime)) / s.interval⌋ :=
    Int.floor_nonneg.2 (div_nonneg he hint.le)
  unfold BPMManager.update
  simp only [hplay, Bool.true_eq_false, if_false]
  split
  case isTrue h =>
    split
    case h_1 p heq1 heq2 =>
      refine ⟨add_nonneg hbc hfl, jsRem_nonneg he hint, jsRem_lt he hint, fun hi => ?_⟩
      rw [hi]
      exact jsRem_lt he hint
    case h_2 =>
      exact ⟨add_nonneg hbc hfl, jsRem_nonneg he hint, jsRem_lt he hint,
        fun _ => jsRem_lt he hint⟩
  case isFalse h =>
    exact ⟨hbc, he, lt_of_not_le h, fun _ => lt_of_not_le h⟩

/-- Witness for C3 at the freshly constructed clock `init 120 0`
(interval 500ms) updated at t = 250ms. -/
theorem C3_update_invariant_witness :
    ((BPMManager.init 120 0).isPlaying = true ∧
     0 ≤ (BPMManager.init 120 0).beatCount ∧
     0 ≤ (BPMManager.init 120 0).elapsed ∧
     0 < (BPMManager.init 120 0).interval ∧
     (BPMManager.init 120 0).lastUpdateTime ≤ 250) ∧
    (0 ≤ (BPMManager.update (BPMManager.init 120 0) 250).beatCount ∧
     0 ≤ (BPMManager.update (BPMManager.init 120 0) 250).elapsed ∧
     (BPMManager.update (BPMManager.init 120 0) 250).elapsed <
       (BPMManager.init 120 0).interval ∧
     ((BPMManager.update (BPMManager.init 120 0) 250).interval =
        (BPMManager.init 120 0).interval →
      (BPMManager.update (BPMManager.init 120 0) 250).elapsed <
        (BPMManager.update (BPMManager.init 120 0) 250).interval)) :=
  ⟨⟨by norm_num [BPMManager.init, BPMManager.start],
    by norm_num [BPMManager.init, BPMManager.start],
    by norm_num [BPMManager.init, BPMManager.start],
    by norm_num [BPMManager.init, BPMManager.start],
    by norm_num [BPMManager.init, BPMManager.start]⟩,
   C3_update_invariant (BPMManager.init 120 0) 250
     (by norm_num [BPMManager.init, BPMManager.start])
     (by norm_num [BPMManager.init, BPMManager.start])
     (by norm_num [BPMManager.init, BPMManager.start])
     (by norm_num [BPMManager.init, BPMManager.start])
     (by norm_num [BPMManager.init, BPMManager.start])⟩

/-! ## C4 -/

open BPMManager in
/-- C4: for a running clock and `x ≠ bpm`, `setBPM(x)` changes neither
`getBeat()` nor the interval; the staged tempo survives every `update()`
that crosses no beat boundary, and at the first boundary-crossing
`update()` it is committed — `bpm = x`, `interval = 60000/x`, and the
staging fields are cleared so no further commit can happen. -/
theorem C4_setBPM_deferred (s : BPMState) (x : ℚ)
    (hplay : s.isPlaying = true) (hne : x ≠ s.bpm) :
    getBeat (setBPM s x) = getBeat s ∧
    (setBPM s x).interval = s.interval ∧
    (setBPM s x).bpm = s.bpm ∧
    (∀ t, s.elapsed + (t - s.lastUpdateTime) < s.interval →
      (update (setBPM s x) t).bpm = s.bpm ∧
      (update (setBPM s x) t).interval = s.interval ∧
      (update (setBPM s x) t).pendingBPM = some x ∧
      (update (setBPM s x) t).pendingBPMChange = true) ∧
    (∀ t, s.interval ≤ s.elapsed + (t - s.lastUpdateTime) →
      (update (setBPM s x) t).bpm = x ∧
      (update (setBPM s x) t).interval = 60000 / x ∧
      (update (setBPM s x) t).pendingBPM = none ∧
      (update (setBPM s x) t).pendingBPMChange = false) := by
  have hs1 : setBPM s x = { s with pendingBPM := some x, pendingBPMChange := true } :=
    if_pos hne
  rw [hs1]
  refine ⟨rfl, rfl, rfl, fun t ht => ?_, fun t ht => ?_⟩
  · unfold update
    simp only [hplay, Bool.true_eq_false, if_false]
    rw [if_neg (not_le.2 ht)]
    exact ⟨rfl, rfl, rfl, rfl⟩
  · unfold update
    simp only [hplay, Bool.true_eq_false, if_false]
    rw [if_pos ht]
    exact ⟨rfl, rfl, rfl, rfl⟩

open BPMManager in
/-- Witness for C4 at `s = init 120 0`, `x = 100`. -/
theorem C4_setBPM_deferred_witness :
    ((BPMManager.init 120 0).isPlaying = true ∧
     (100 : ℚ) ≠ (BPMManager.init 120 0).bpm) ∧
    (getBeat (setBPM (BPMManager.init 120 0) 100) = getBeat (BPMManager.init 120 0) ∧
     (setBPM (BPMManager.init 120 0) 100).interval = (BPMManager.init 120 0).interval ∧
     (setBPM (BPMManager.init 120 0) 100).bpm = (BPMManager.init 120 0).bpm ∧
     (∀ t, (BPMManager.init 120 0).elapsed + (t - (BPMManager.init 120 0).lastUpdateTime) <
        (BPMManager.init 120 0).interval →
       (update (setBPM (BPMManager.init 120 0) 100) t).bpm = (BPMManager.init 120 0).bpm ∧
       (update (setBPM (BPMManager.init 120 0) 100) t).interval = (BPMManager.init 120 0).interval ∧
       (update (setBPM (BPMManager.init 120 0) 100) t).pendingBPM = some 100 ∧
       (update (setBPM (BPMManager.init 120 0) 100) t).pendingBPMChange = true) ∧
     (∀ t, (BPMManager.init 120 0).interval ≤
        (BPMManager.init 120 0).elapsed + (t - (BPMManager.init 120 0).lastUpdateTime) →
       (update (setBPM (BPMManager.init 120 0) 100) t).bpm = 100 ∧
       (update (setBPM (BPMManager.init 120 0) 100) t).interval = 60000 / 100 ∧
       (update (setBPM (BPMManager.init 120 0) 100) t).pendingBPM = none ∧
       (update (setBPM (BPMManager.init 120 0) 100) t).pendingBPMChange = false)) :=
  ⟨⟨by norm_num [BPMManager.init, BPMManager.start],
    by norm_num [BPMManager.init, BPMManager.start]⟩,
   C4_setBPM_deferred (BPMManager.init 120 0) 100
     (by norm_num [BPMManager.init, BPMManager.start])
     (by norm_num [BPMManager.init, BPMManager.start])⟩

/-! ## C5 -/

/-- Second concrete step for the C5 counterexample: from the state left
by `trace_commit_faster` (elapsed 900 ≥ interval 250), staging 1 BPM and
updating 1ms later commits the slow tempo while three beats are counted
at once, dropping the fractional part. -/
theorem trace_second_commit :
    BPMManager.update
      (BPMManager.setBPM (⟨240, 250, 1900, 900, 1, true, true, none, false, []⟩ : BPMState) 1)
      1901 =
      ⟨1, 60000, 1901, 151, 4, true, true, none, false, []⟩ := by
  have h1 : BPMManager.setBPM
      (⟨240, 250, 1900, 900, 1, true, true, none, false, []⟩ : BPMState) 1 =
      ⟨240, 250, 1900, 900, 1, true, true, some 1, true, []⟩ := by
    norm_num [BPMManager.setBPM]
  rw [h1]
  norm_num [BPMManager.update, jsRem, jsTrunc]

open BPMManager in
/-- C5 counterexample: a sequence of `update()` calls at strictly
increasing times (1900 then 1901) on a clock that stays running, where
each call commits a pending tempo change, makes `getBeat()` DECREASE:
from 1 + 900/250 = 4.6 down to 4 + 151/60000 ≈ 4.0025. -/
theorem C5_counterexample :
    (BPMManager.init 60 0).isPlaying = true ∧
    (update (setBPM (BPMManager.init 60 0) 240) 1900).isPlaying = true ∧
    (update (setBPM (update (setBPM (BPMManager.init 60 0) 240) 1900) 1) 1901).isPlaying
      = true ∧
    getBeat (update (setBPM (update (setBPM (BPMManager.init 60 0) 240) 1900) 1) 1901) <
      getBeat (update (setBPM (BPMManager.init 60 0) 240) 1900) := by
  rw [trace_commit_faster, trace_second_commit]
  refine ⟨by norm_num [BPMManager.init, BPMManager.start], rfl, rfl, ?_⟩
  norm_num [BPMManager.getBeat]

open BPMManager in
/-- C5 (amended): across one `update()` call whose pre-state satisfies
the phase invariant `0 ≤ elapsed < interval` (with positive interval and
any pending tempo positive), `getBeat()` is non-decreasing, and after the
call `getBeat() = beatCount + elapsed/interval` holds.  The claim's
unrestricted form is false: a commit to a faster tempo breaks the phase
invariant (C3), after which a second commit can make `getBeat()`
decrease (see the counterexample). -/
theorem C5_getBeat_monotone (s : BPMState) (t : ℚ)
    (hplay : s.isPlaying = true)
    (hel : 0 ≤ s.elapsed) (helt : s.elapsed < s.interval)
    (hint : 0 < s.interval)
    (hpend : ∀ p, s.pendingBPM = some p → 0 < p)
    (ht : s.lastUpdateTime ≤ t) :
    getBeat s ≤ getBeat (update s t) ∧
    getBeat (update s t) =
      ((update s t).beatCount : ℚ) + (update s t).elapsed / (update s t).interval := by
  refine ⟨?_, rfl⟩
  have hd : 0 ≤ t - s.lastUpdateTime := sub_nonneg.2 ht
  have he : 0 ≤ s.elapsed + (t - s.lastUpdateTime) := add_nonneg hel hd
  unfold update getBeat
  simp only [hplay, Bool.true_eq_false, if_false]
  split
  case isTrue h =>
    have hfloor1 : (1 : ℤ) ≤ ⌊(s.elapsed + (t - s.lastUpdateTime)) / s.interval⌋ :=
      Int.le_floor.2 (by exact_mod_cast (one_le_div hint).2 h)
    have hfrac : s.elapsed / s.interval < 1 := (div_lt_one hint).2 helt
    have h1 : (1 : ℚ) ≤ (⌊(s.elapsed + (t - s.lastUpdateTime)) / s.interval⌋ : ℚ) := by
      exact_mod_cast hfloor1
    split
    case h_1 p heq1 heq2 =>
      have hp : 0 < p := hpend p heq2
      have hrem : 0 ≤ jsRem (s.elapsed + (t - s.lastUpdateTime)) s.interval / (60000 / p) :=
        div_nonneg (jsRem_nonneg he hint) (by positivity)
      dsimp only
      push_cast
      linarith
    case h_2 =>
      have hsum := floor_add_jsRem_div (s.elapsed + (t - s.lastUpdateTime)) s.interval he hint
      have hmono : s.elapsed / s.interval ≤ (s.elapsed + (t - s.lastUpdateTime)) / s.interval :=
        (div_le_div_iff_of_pos_right hint).2 (by linarith)
      dsimp only
      push_cast
      linarith
  case isFalse h =>
    have hmono : s.elapsed / s.interval ≤ (s.elapsed + (t - s.lastUpdateTime)) / s.interval :=
      (div_le_div_iff_of_pos_right hint).2 (by linarith)
    dsimp only
    linarith

open BPMManager in
/-- Witness for C5 at the freshly constructed clock `init 120 0`
(interval 500ms) updated at t = 250ms. -/
theorem C5_getBeat_monotone_witness :
    ((BPMManager.init 120 0).isPlaying = true ∧
     0 ≤ (BPMManager.init 120 0).elapsed ∧
     (BPMManager.init 120 0).elapsed < (BPMManager.init 120 0).interval ∧
     0 < (BPMManager.init 120 0).interval ∧
     (∀ p, (BPMManager.init 120 0).pendingBPM = some p → 0 < p) ∧
     (BPMManager.init 120 0).lastUpdateTime ≤ 250) ∧
    (getBeat (BPMManager.init 120 0) ≤ getBeat (update (BPMManager.init 120 0) 250) ∧
     getBeat (update (BPMManager.init 120 0) 250) =
       ((update (BPMManager.init 120 0) 250).beatCount : ℚ) +
         (update (BPMManager.init 120 0) 250).elapsed /
           (update (BPMManager.init 120 0) 250).interval) :=
  ⟨⟨by norm_num [BPMManager.init, BPMManager.start],
    by norm_num [BPMManager.init, BPMManager.start],
    by norm_num [BPMManager.init, BPMManager.start],
    by norm_num [BPMManager.init, BPMManager.start],
    by intro p hp; rw [show (BPMManager.init 120 0).pendingBPM = none by
        norm_num [BPMManager.init, BPMManager.start]] at hp; exact Option.noConfusion hp,
    by norm_num [BPMManager.init, BPMManager.start]⟩,
   C5_getBeat_monotone (BPMManager.init 120 0) 250
     (by norm_num [BPMManager.init, BPMManager.start])
     (by norm_num [BPMManager.init, BPMManager.start])
     (by norm_num [BPMManager.init, BPMManager.start])
     (by norm_num [BPMManager.init, BPMManager.start])
     (by intro p hp; rw [show (BPMManager.init 120 0).pendingBPM = none by
        norm_num [BPMManager.init, BPMManager.start]] at hp; exact Option.noConfusion hp)
     (by norm_num [BPMManager.init, BPMManager.start])⟩

/-! ## C10 -/

open BPMManager in
/-- C10: `stop()` followed by `start()` at wall-clock time `t` resets
`beatCount` to 0 and re-baselines `lastUpdateTime`, but leaves the
accumulated phase `elapsed` untouched, so `getBeat()` right after the
restart equals the residual fraction `elapsed/interval` (not 0); `bpm`,
`interval` and the pending-change fields are also unchanged by the pair. -/
theorem C10_stop_start_keeps_phase (s : BPMState) (t : ℚ) :
    (start (stop s) t).beatCount = 0 ∧
    (start (stop s) t).elapsed = s.elapsed ∧
    (start (stop s) t).lastUpdateTime = t ∧
    (start (stop s) t).isPlaying = true ∧
    getBeat (start (stop s) t) = s.elapsed / s.interval ∧
    (start (stop s) t).bpm = s.bpm ∧
    (start (stop s) t).interval = s.interval ∧
    (start (stop s) t).pendingBPM = s.pendingBPM ∧
    (start (stop s) t).pendingBPMChange = s.pendingBPMChange := by
  have h : start (stop s) t =
      { s with isPlaying := true, lastUpdateTime := t, beatCount := 0 } := by
    unfold start stop
    simp
  rw [h]
  refine ⟨rfl, rfl, rfl, rfl, ?_, rfl, rfl, rfl, rfl⟩
  simp [getBeat]

/-! ## C8 -/

open APCMiniMK2Sequencer in
/-- C8: `getSequenceValue` is total (the embedding is a total function);
out-of-range pattern or step indices — negative or ≥ 8, in particular
(99,0) and (0,99) — yield 0, while in-range indices read the stored grid
cell. -/
theorem C8_getSequenceValue_total (s : SeqState) (p c : ℤ)
    (h : p < 0 ∨ 8 ≤ p ∨ c < 0 ∨ 8 ≤ c) :
    getSequenceValue s p c = 0 ∧
    getSequenceValue s 99 0 = 0 ∧
    getSequenceValue s 0 99 = 0 ∧
    (∀ p' c' : ℤ, 0 ≤ p' → p' < 8 → 0 ≤ c' → c' < 8 →
      getSequenceValue s p' c' =
        (s.sequencePatterns.getD p'.toNat []).getD c'.toNat 0) := by
  refine ⟨?_, ?_, ?_, fun p' c' h1 h2 h3 h4 => ?_⟩
  · unfold getSequenceValue; rw [if_pos h]
  · unfold getSequenceValue; norm_num
  · unfold getSequenceValue; norm_num
  · unfold getSequenceValue; rw [if_neg (by omega)]

open APCMiniMK2Sequencer in
/-- Witness for C8 at the freshly constructed sequencer and indices
(99, 0). -/
theorem C8_getSequenceValue_total_witness :
    ((99 : ℤ) < 0 ∨ (8 : ℤ) ≤ 99 ∨ (0 : ℤ) < 0 ∨ (8 : ℤ) ≤ 0) ∧
    (getSequenceValue (APCMiniMK2Sequencer.init true) 99 0 = 0 ∧
     getSequenceValue (APCMiniMK2Sequencer.init true) 99 0 = 0 ∧
     getSequenceValue (APCMiniMK2Sequencer.init true) 0 99 = 0 ∧
     (∀ p' c' : ℤ, 0 ≤ p' → p' < 8 → 0 ≤ c' → c' < 8 →
       getSequenceValue (APCMiniMK2Sequencer.init true) p' c' =
         ((APCMiniMK2Sequencer.init true).sequencePatterns.getD p'.toNat []).getD
           c'.toNat 0)) :=
  ⟨Or.inr (Or.inl (by norm_num)),
   C8_getSequenceValue_total (APCMiniMK2Sequencer.init true) 99 0
     (Or.inr (Or.inl (by norm_num)))⟩

/-! ## C9 -/

open APCMiniMK2Sequencer in
/-- C9: a note-off (status 0x80) with nonzero velocity on a grid note
`n ≤ 63` produces exactly the same state as the corresponding note-on —
in particular it writes
`grid[sideButtonRadioNum][n % 8] = 7 - ⌊n/8⌋` a second time on release —
and only a zero-velocity message leaves the state unchanged. -/
theorem C9_noteoff_edits_grid (s : SeqState) (n v : ℕ)
    (hn : n ≤ 63) (hv : 0 < v) :
    handleMIDIMessage s ⟨0x80, n, v⟩ = handleMIDIMessage s ⟨0x90, n, v⟩ ∧
    (handleMIDIMessage s ⟨0x80, n, v⟩).sequencePatterns =
      s.sequencePatterns.set s.sideButtonRadioNum
        ((s.sequencePatterns.getD s.sideButtonRadioNum []).set (n % 8)
          ((7 : ℤ) - (n / 8 : ℕ))) ∧
    handleMIDIMessage s ⟨0x80, n, 0⟩ = s := by
  have hm8 := manager_skips_grid_notes s ⟨0x80, n, v⟩ (Or.inr rfl) hn
  have hm9 := manager_skips_grid_notes s ⟨0x90, n, v⟩ (Or.inl rfl) hn
  have hm0 := manager_skips_grid_notes s ⟨0x80, n, 0⟩ (Or.inr rfl) hn
  unfold handleMIDIMessage
  dsimp only
  rw [hm8, hm9, hm0]
  rw [if_pos ⟨hv, Or.inr rfl, hn⟩, if_pos ⟨hv, Or.inl rfl, hn⟩,
    if_neg (by simp)]
  exact ⟨rfl, rfl, rfl⟩

open APCMiniMK2Sequencer in
/-- Witness for C9 at the freshly constructed sequencer, note 19,
release velocity 64. -/
theorem C9_noteoff_edits_grid_witness :
    ((19 : ℕ) ≤ 63 ∧ (0 : ℕ) < 64) ∧
    (handleMIDIMessage (APCMiniMK2Sequencer.init true) ⟨0x80, 19, 64⟩ =
       handleMIDIMessage (APCMiniMK2Sequencer.init true) ⟨0x90, 19, 64⟩ ∧
     (handleMIDIMessage (APCMiniMK2Sequencer.init true) ⟨0x80, 19, 64⟩).sequencePatterns =
       (APCMiniMK2Sequencer.init true).sequencePatterns.set
         (APCMiniMK2Sequencer.init true).sideButtonRadioNum
         (((APCMiniMK2Sequencer.init true).sequencePatterns.getD
             (APCMiniMK2Sequencer.init true).sideButtonRadioNum []).set (19 % 8)
           ((7 : ℤ) - (19 / 8 : ℕ))) ∧
     handleMIDIMessage (APCMiniMK2Sequencer.init true) ⟨0x80, 19, 0⟩ =
       APCMiniMK2Sequencer.init true) :=
  ⟨⟨by norm_num, by norm_num⟩,
   C9_noteoff_edits_grid (APCMiniMK2Sequencer.init true) 19 64
     (by norm_num) (by norm_num)⟩

/-! ## C6 -/

open APCMiniMK2Sequencer in
/-- C6: a grid edit event for (step 3, row 5) — note 19, nonzero
velocity — received while pattern 2 is selected writes cell (2,3) to 5,
leaves the same column of patterns 0, 1 and 3 untouched, and a
subsequent pattern-select button press (any side button, any nonzero
velocity) does not alter the already-written cell. -/
theorem C6_grid_edit_targets_selected (s : SeqState) (v : ℕ)
    (hsel : s.sideButtonRadioNum = 2) (hv : 0 < v)
    (hlen : s.sequencePatterns.length = 8)
    (hplen : (s.sequencePatterns.getD 2 []).length = 8) :
    getSequenceValue (handleMIDIMessage s ⟨0x90, 19, v⟩) 2 3 = 5 ∧
    getSequenceValue (handleMIDIMessage s ⟨0x90, 19, v⟩) 0 3 = getSequenceValue s 0 3 ∧
    getSequenceValue (handleMIDIMessage s ⟨0x90, 19, v⟩) 1 3 = getSequenceValue s 1 3 ∧
    getSequenceValue (handleMIDIMessage s ⟨0x90, 19, v⟩) 3 3 = getSequenceValue s 3 3 ∧
    (∀ k w : ℕ, k ≤ 7 → 0 < w →
      getSequenceValue
        (handleMIDIMessage (handleMIDIMessage s ⟨0x90, 19, v⟩) ⟨0x90, 112 + k, w⟩)
        2 3 = 5) := by
  have hm := manager_skips_grid_notes s ⟨0x90, 19, v⟩ (Or.inl rfl) (by norm_num)
  have hstep : handleMIDIMessage s ⟨0x90, 19, v⟩ =
      { s with sequencePatterns :=
          s.sequencePatterns.set 2 ((s.sequencePatterns.getD 2 []).set 3 5) } := by
    unfold handleMIDIMessage
    dsimp only
    rw [hm, if_pos ⟨hv, Or.inl rfl, by norm_num⟩, hsel]
    norm_num
  have hget2 : ((handleMIDIMessage s ⟨0x90, 19, v⟩).sequencePatterns.getD 2 []) =
      (s.sequencePatterns.getD 2 []).set 3 5 := by
    rw [hstep]
    dsimp only
    rw [List.getD_eq_getElem?_getD, List.getElem?_set_self (by omega),
      Option.getD_some]
  have hval2 : getSequenceValue (handleMIDIMessage s ⟨0x90, 19, v⟩) 2 3 = 5 := by
    unfold getSequenceValue
    rw [if_neg (by norm_num)]
    show ((handleMIDIMessage s ⟨0x90, 19, v⟩).sequencePatterns.getD 2 []).getD 3 0 = 5
    rw [hget2, List.getD_eq_getElem?_getD, List.getElem?_set_self (by omega),
      Option.getD_some]
  have hother : ∀ q : ℕ, q ≠ 2 →
      ((handleMIDIMessage s ⟨0x90, 19, v⟩).sequencePatterns.getD q []) =
        s.sequencePatterns.getD q [] := by
    intro q hq
    rw [hstep]
    dsimp only
    rw [List.getD_eq_getElem?_getD, List.getElem?_set_ne (fun h => hq h.symm),
      ← List.getD_eq_getElem?_getD]
  refine ⟨hval2, ?_, ?_, ?_, ?_⟩
  · unfold getSequenceValue
    rw [if_neg (by norm_num), if_neg (by norm_num)]
    show ((handleMIDIMessage s ⟨0x90, 19, v⟩).sequencePatterns.getD 0 []).getD 3 0 = _
    rw [hother 0 (by norm_num)]
    rfl
  · unfold getSequenceValue
    rw [if_neg (by norm_num), if_neg (by norm_num)]
    show ((handleMIDIMessage s ⟨0x90, 19, v⟩).sequencePatterns.getD 1 []).getD 3 0 = _
    rw [hother 1 (by norm_num)]
    rfl
  · unfold getSequenceValue
    rw [if_neg (by norm_num), if_neg (by norm_num)]
    show ((handleMIDIMessage s ⟨0x90, 19, v⟩).sequencePatterns.getD 3 []).getD 3 0 = _
    rw [hother 3 (by norm_num)]
    rfl
  · intro k w hk hw
    have hpres := handle_preserves_patterns (handleMIDIMessage s ⟨0x90, 19, v⟩)
      ⟨0x90, 112 + k, w⟩ (by dsimp only; omega)
    unfold getSequenceValue
    rw [if_neg (by norm_num)]
    show ((handleMIDIMessage (handleMIDIMessage s ⟨0x90, 19, v⟩)
        ⟨0x90, 112 + k, w⟩).sequencePatterns.getD 2 []).getD 3 0 = 5
    rw [hpres, hget2, List.getD_eq_getElem?_getD, List.getElem?_set_self (by omega),
      Option.getD_some]

open APCMiniMK2Sequencer in
/-- Witness for C6 at a freshly constructed sequencer with pattern 2
selected, velocity 100. -/
theorem C6_grid_edit_targets_selected_witness :
    ((⟨List.replicate 9 0, List.replicate 9 0, List.replicate 9 0,
       List.replicate 9 false, List.replicate 8 0, 2, true,
       List.replicate 8 (List.replicate 8 0)⟩ : SeqState).sideButtonRadioNum = 2 ∧
     (0 : ℕ) < 100 ∧
     (⟨List.replicate 9 0, List.replicate 9 0, List.replicate 9 0,
       List.replicate 9 false, List.replicate 8 0, 2, true,
       List.replicate 8 (List.replicate 8 0)⟩ : SeqState).sequencePatterns.length = 8 ∧
     ((⟨List.replicate 9 0, List.replicate 9 0, List.replicate 9 0,
        List.replicate 9 false, List.replicate 8 0, 2, true,
        List.replicate 8 (List.replicate 8 0)⟩ : SeqState).sequencePatterns.getD 2 []).length
       = 8) ∧
    (getSequenceValue
       (handleMIDIMessage
         (⟨List.replicate 9 0, List.replicate 9 0, List.replicate 9 0,
           List.replicate 9 false, List.replicate 8 0, 2, true,
           List.replicate 8 (List.replicate 8 0)⟩ : SeqState) ⟨0x90, 19, 100⟩) 2 3 = 5 ∧
     getSequenceValue
       (handleMIDIMessage
         (⟨List.replicate 9 0, List.replicate 9 0, List.replicate 9 0,
           List.replicate 9 false, List.replicate 8 0, 2, true,
           List.replicate 8 (List.replicate 8 0)⟩ : SeqState) ⟨0x90, 19, 100⟩) 0 3 =
       getSequenceValue
         (⟨List.replicate 9 0, List.replicate 9 0, List.replicate 9 0,
           List.replicate 9 false, List.replicate 8 0, 2, true,
           List.replicate 8 (List.replicate 8 0)⟩ : SeqState) 0 3 ∧
     getSequenceValue
       (handleMIDIMessage
         (⟨List.replicate 9 0, List.replicate 9 0, List.replicate 9 0,
           List.replicate 9 false, List.replicate 8 0, 2, true,
           List.replicate 8 (List.replicate 8 0)⟩ : SeqState) ⟨0x90, 19, 100⟩) 1 3 =
       getSequenceValue
         (⟨List.replicate 9 0, List.replicate 9 0, List.replicate 9 0,
           List.replicate 9 false, List.replicate 8 0, 2, true,
           List.replicate 8 (List.replicate 8 0)⟩ : SeqState) 1 3 ∧
     getSequenceValue
       (handleMIDIMessage
         (⟨List.replicate 9 0, List.replicate 9 0, List.replicate 9 0,
           List.replicate 9 false, List.replicate 8 0, 2, true,
           List.replicate 8 (List.replicate 8 0)⟩ : SeqState) ⟨0x90, 19, 100⟩) 3 3 =
       getSequenceValue
         (⟨List.replicate 9 0, List.replicate 9 0, List.replicate 9 0,
           List.replicate 9 false, List.replicate 8 0, 2, true,
           List.replicate 8 (List.replicate 8 0)⟩ : SeqState) 3 3 ∧
     (∀ k w : ℕ, k ≤ 7 → 0 < w →
       getSequenceValue
         (handleMIDIMessage
           (handleMIDIMessage
             (⟨List.replicate 9 0, List.replicate 9 0, List.replicate 9 0,
               List.replicate 9 false, List.replicate 8 0, 2, true,
               List.replicate 8 (List.replicate 8 0)⟩ : SeqState) ⟨0x90, 19, 100⟩)
           ⟨0x90, 112 + k, w⟩) 2 3 = 5)) :=
  ⟨⟨rfl, by norm_num, by decide, by decide⟩,
   C6_grid_edit_targets_selected
     (⟨List.replicate 9 0, List.replicate 9 0, List.replicate 9 0,
       List.replicate 9 false, List.replicate 8 0, 2, true,
       List.replicate 8 (List.replicate 8 0)⟩ : SeqState) 100
     rfl (by norm_num) (by decide) (by decide)⟩

/-! ## C7 -/

open APCMiniMK2Sequencer in
/-- Every `sendLEDMessage` carries a velocity clamped into [0, 127]. -/
theorem sendLEDMessage_velocity_range (n : ℕ) (i : ℤ) :
    0 ≤ (sendLEDMessage n i).velocity ∧ (sendLEDMessage n i).velocity ≤ 127 := by
  unfold sendLEDMessage
  split_ifs <;>
    exact ⟨le_min (le_max_right _ _) (by norm_num), min_le_right _ _⟩

open APCMiniMK2Sequencer in
/-- C7: every message of an LED feedback frame carries a velocity in
[0, 127]; each pattern color plus `MAX_INTENSITY_OFFSET` exceeds 127;
and the selected pattern-select indicator emits
`min 127 (patternColor + MAX_INTENSITY_OFFSET)` — the over-limit sum is
capped at 127, not wrapped and not dropped. -/
theorem C7_led_velocity_clamped (s : SeqState) (step : ℤ) :
    ((sendSequencerLEDs s step).all fun m =>
      decide (0 ≤ m.velocity ∧ m.velocity ≤ 127)) = true ∧
    ((List.range 8).all fun i =>
      decide (127 < PATTERN_COLORS.getD i 0 + MAX_INTENSITY_OFFSET)) = true ∧
    sideButtonIntensity s s.sideButtonRadioNum =
      min 127 (PATTERN_COLORS.getD s.sideButtonRadioNum 0 + MAX_INTENSITY_OFFSET) := by
  refine ⟨?_, by decide, ?_⟩
  · rw [List.all_eq_true]
    intro m hm
    rw [decide_eq_true_eq]
    unfold sendSequencerLEDs at hm
    split at hm
    · exact absurd hm (List.not_mem_nil m)
    · rcases List.mem_append.1 hm with h1 | h2
      · rcases List.mem_append.1 h1 with hg | hs
        · rcases List.mem_flatMap.1 hg with ⟨col, _, hcol⟩
          rcases List.mem_map.1 hcol with ⟨row, _, hrow⟩
          rw [← hrow]
          exact sendLEDMessage_velocity_range _ _
        · rcases List.mem_map.1 hs with ⟨i, _, hi⟩
          rw [← hi]
          exact sendLEDMessage_velocity_range _ _
      · rcases List.mem_map.1 h2 with ⟨pr, _, hp⟩
        rw [← hp]
        exact sendLEDMessage_velocity_range _ _
  · unfold sideButtonIntensity
    rw [if_pos rfl]
    dsimp only
    split_ifs with h
    · omega
    · omega

/-! ## C2 -/

open APCMiniMK2Sequencer in
/-- C2 counterexample: with pattern 0 selected, every cell of its row
configured to 5 (so `grid[0][3] = 5`) and `currentStep = 3`, the
"active" cell (row 5, col 3) gets exactly the same intensity as the
"configured row" cell (row 5, col 0): both are the pattern color 5.  The
code has no distinct higher-brightness tier for the active cell. -/
theorem C2_counterexample :
    ((⟨List.replicate 9 0, List.replicate 9 0, List.replicate 9 0,
       List.replicate 9 false, List.replicate 8 0, 0, true,
       List.replicate 8 (List.replicate 8 5)⟩ : SeqState).sequencePatterns.getD 0 []).getD
      3 0 = 5 ∧
    gridIntensity
      (⟨List.replicate 9 0, List.replicate 9 0, List.replicate 9 0,
        List.replicate 9 false, List.replicate 8 0, 0, true,
        List.replicate 8 (List.replicate 8 5)⟩ : SeqState) 3 3 5 =
      PATTERN_COLORS.getD 0 0 ∧
    gridIntensity
      (⟨List.replicate 9 0, List.replicate 9 0, List.replicate 9 0,
        List.replicate 9 false, List.replicate 8 0, 0, true,
        List.replicate 8 (List.replicate 8 5)⟩ : SeqState) 3 0 5 =
      PATTERN_COLORS.getD 0 0 ∧
    gridIntensity
      (⟨List.replicate 9 0, List.replicate 9 0, List.replicate 9 0,
        List.replicate 9 false, List.replicate 8 0, 0, true,
        List.replicate 8 (List.replicate 8 5)⟩ : SeqState) 3 3 5 =
      gridIntensity
        (⟨List.replicate 9 0, List.replicate 9 0, List.replicate 9 0,
          List.replicate 9 false, List.replicate 8 0, 0, true,
          List.replicate 8 (List.replicate 8 5)⟩ : SeqState) 3 0 5 := by
  refine ⟨by decide, by decide, by decide, by decide⟩

open APCMiniMK2Sequencer in
/-- C2 (amended): with pattern `p` selected, its configured row 5 across
all columns, and `currentStep = 3`: the cell (row 5, col 3) resolves to
the pattern color — the SAME value as the "configured row" tier, the code
distinguishes the two priority branches but not their colors —, cells
(row 5, col ≠ 3) to the pattern color, cells (row ≠ 5, col 3) to the
neutral playhead color `APC_WHITE`, and all remaining cells to
`APC_OFF`, in this fixed priority order; the cell at (5,3) is part of
the emitted frame whenever the transport is up. -/
theorem C2_feedback_priority (s : SeqState) (p : ℕ)
    (hsel : s.sideButtonRadioNum = p) (_hp : p < 8)
    (hrow : ∀ c : ℕ, c < 8 → (s.sequencePatterns.getD p []).getD c 0 = 5) :
    gridIntensity s 3 3 5 = PATTERN_COLORS.getD p 0 ∧
    (∀ c : ℕ, c < 8 → c ≠ 3 → gridIntensity s 3 c 5 = PATTERN_COLORS.getD p 0) ∧
    (∀ r : ℕ, r < 8 → r ≠ 5 → gridIntensity s 3 3 r = APC_WHITE) ∧
    (∀ c r : ℕ, c < 8 → r < 8 → c ≠ 3 → r ≠ 5 → gridIntensity s 3 c r = APC_OFF) ∧
    (s.midiSuccess = true →
      sendLEDMessage (3 + (7 - 5) * 8) (gridIntensity s 3 3 5) ∈
        sendSequencerLEDs s 3) := by
  refine ⟨?_, fun c hc hc3 => ?_, fun r hr hr5 => ?_,
    fun c r hc hr hc3 hr5 => ?_, fun hmidi => ?_⟩
  · unfold gridIntensity
    dsimp only
    rw [hsel, hrow 3 (by norm_num)]
    norm_num
  · unfold gridIntensity
    dsimp only
    rw [hsel, hrow c hc]
    rw [if_neg (by exact fun h => hc3 (by exact_mod_cast h.2))]
    norm_num
  · unfold gridIntensity
    dsimp only
    rw [hsel, hrow 3 (by norm_num)]
    rw [if_neg (fun h => hr5 (by exact_mod_cast h.1)),
      if_neg (fun h => hr5 (by exact_mod_cast h))]
    norm_num
  · unfold gridIntensity
    dsimp only
    rw [hsel, hrow c hc]
    rw [if_neg (fun h => hr5 (by exact_mod_cast h.1)),
      if_neg (fun h => hr5 (by exact_mod_cast h)),
      if_neg (fun h => hc3 (by exact_mod_cast h))]
  · unfold sendSequencerLEDs
    rw [if_neg (by rw [hmidi]; exact fun h => Bool.noConfusion h)]
    refine List.mem_append.2 (Or.inl (List.mem_append.2 (Or.inl ?_)))
    refine List.mem_flatMap.2 ⟨3, by norm_num, ?_⟩
    exact List.mem_map.2 ⟨5, by norm_num, rfl⟩

open APCMiniMK2Sequencer in
/-- Witness for C2 at a freshly constructed sequencer with pattern 0
selected and its whole row configured to 5. -/
theorem C2_feedback_priority_witness :
    ((⟨List.replicate 9 0, List.replicate 9 0, List.replicate 9 0,
       List.replicate 9 false, List.replicate 8 0, 0, true,
       List.replicate 8 (List.replicate 8 5)⟩ : SeqState).sideButtonRadioNum = 0 ∧
     (0 : ℕ) < 8 ∧
     (∀ c : ℕ, c < 8 →
       ((⟨List.replicate 9 0, List.replicate 9 0, List.replicate 9 0,
          List.replicate 9 false, List.replicate 8 0, 0, true,
          List.replicate 8 (List.replicate 8 5)⟩ : SeqState).sequencePatterns.getD 0 []).getD
         c 0 = 5)) ∧
    (gridIntensity
       (⟨List.replicate 9 0, List.replicate 9 0, List.replicate 9 0,
         List.replicate 9 false, List.replicate 8 0, 0, true,
         List.replicate 8 (List.replicate 8 5)⟩ : SeqState) 3 3 5 =
       PATTERN_COLORS.getD 0 0 ∧
     (∀ c : ℕ, c < 8 → c ≠ 3 →
       gridIntensity
         (⟨List.replicate 9 0, List.replicate 9 0, List.replicate 9 0,
           List.replicate 9 false, List.replicate 8 0, 0, true,
           List.replicate 8 (List.replicate 8 5)⟩ : SeqState) 3 c 5 =
         PATTERN_COLORS.getD 0 0) ∧
     (∀ r : ℕ, r < 8 → r ≠ 5 →
       gridIntensity
         (⟨List.replicate 9 0, List.replicate 9 0, List.replicate 9 0,
           List.replicate 9 false, List.replicate 8 0, 0, true,
           List.replicate 8 (List.replicate 8 5)⟩ : SeqState) 3 3 r = APC_WHITE) ∧
     (∀ c r : ℕ, c < 8 → r < 8 → c ≠ 3 → r ≠ 5 →
       gridIntensity
         (⟨List.replicate 9 0, List.replicate 9 0, List.replicate 9 0,
           List.replicate 9 false, List.replicate 8 0, 0, true,
           List.replicate 8 (List.replicate 8 5)⟩ : SeqState) 3 c r = APC_OFF) ∧
     ((⟨List.replicate 9 0, List.replicate 9 0, List.replicate 9 0,
        List.replicate 9 false, List.replicate 8 0, 0, true,
        List.replicate 8 (List.replicate 8 5)⟩ : SeqState).midiSuccess = true →
       sendLEDMessage (3 + (7 - 5) * 8)
         (gridIntensity
           (⟨List.replicate 9 0, List.replicate 9 0, List.replicate 9 0,
             List.replicate 9 false, List.replicate 8 0, 0, true,
             List.replicate 8 (List.replicate 8 5)⟩ : SeqState) 3 3 5) ∈
         sendSequencerLEDs
           (⟨List.replicate 9 0, List.replicate 9 0, List.replicate 9 0,
             List.replicate 9 false, List.replicate 8 0, 0, true,
             List.replicate 8 (List.replicate 8 5)⟩ : SeqState) 3)) :=
  ⟨⟨rfl, by norm_num, by decide⟩,
   C2_feedback_priority
     (⟨List.replicate 9 0, List.replicate 9 0, List.replicate 9 0,
       List.replicate 9 false, List.replicate 8 0, 0, true,
       List.replicate 8 (List.replicate 8 5)⟩ : SeqState) 0
     rfl (by norm_num) (by decide)⟩

end PKMini
